import Mathlib

/-!
Verification of the darkfi node core: the transaction admission pipeline
(`src/bin/darkfid/src/rpc_tx.rs`) and the Address-Exchange protocol
(`src/net/protocol/protocol_address.rs`), shallowly embedded in Lean.

External collaborators of the repository (serde_json values, base-58 codec,
cryptographic address/key/token parsing, the transaction builder, the blake3
hash, the peer network) are modelled as parameters of an environment record:
the control flow, the order of checks, and the error mapping are translated
from the source.
-/

/-- The fragment of `serde_json::Value` exercised by the RPC handlers. -/
inductive JValue where
  | str (s : String)
  | num (n : Int)
  | bool (b : Bool)
  | null
deriving DecidableEq

/-- `Value::is_string`. -/
def JValue.is_string : JValue → Bool
  | .str _ => true
  | _ => false

/-- `Value::is_u64`: true exactly for non-negative integers below 2^64. -/
def JValue.is_u64 : JValue → Bool
  | .num n => decide (0 ≤ n ∧ n < 2 ^ 64)
  | _ => false

/-- `Value::as_str`: `some` exactly on strings. -/
def JValue.as_str : JValue → Option String
  | .str s => some s
  | _ => none

/-- `Value::as_u64`. -/
def JValue.as_u64 : JValue → Option Nat
  | .num n => if 0 ≤ n ∧ n < 2 ^ 64 then some n.toNat else none
  | _ => none

/-- Canonical chain state (`state_machine`), abstracted to opaque content. -/
structure StateMachine where
  data : Nat
deriving DecidableEq

/-- `darkfi::node::MemoryState`: the ephemeral copy used by the dry run. -/
structure MemoryState where
  state : StateMachine
deriving DecidableEq

/-- `MemoryState::new`, from a clone of the canonical state machine. -/
def MemoryState.new (s : StateMachine) : MemoryState := ⟨s⟩

/-- `darkfi::tx::Transaction`, abstracted to opaque content. -/
structure Tx where
  data : Nat
deriving DecidableEq

/-- `darkfi::crypto::address::Address`, abstracted. -/
structure Address where
  data : Nat
deriving DecidableEq

/-- `darkfi::crypto::keypair::PublicKey`, abstracted. -/
structure PublicKey where
  data : Nat
deriving DecidableEq

/-- A token identifier, abstracted. -/
structure TokenId where
  data : Nat
deriving DecidableEq

/-- The `RpcError` variants returned through `server_error` in `rpc_tx.rs`. -/
inductive RpcError where
  | NotYetSynced
  | InvalidAddressParam
  | ParseError
  | TxBuildFail
  | TxSimulationFail
  | TxBroadcastFail
deriving DecidableEq

/-- Outcome of one RPC handler call.  `crash` models a Rust panic (an
`unwrap` on `None`), which is not a JSON-RPC reply at all. -/
inductive JsonResult where
  | invalidParams
  | serverError (e : RpcError)
  | response (s : String)
  | crash (msg : String)
deriving DecidableEq

/-- Observable side effects of a handler call, in order of occurrence. -/
inductive Event where
  | decodeAttempt
  | simulationRun
  | broadcastTx (t : Tx)
deriving DecidableEq

/-- External collaborators of `Darkfid::transfer`, as oracle functions:
address/key/token parsing, the transaction builder, serialization and the
blake3 hash (a fixed 32-byte output rendered as hex by `toHex` below). -/
structure TransferEnv where
  parseAddress : String → Option Address
  pubkeyFromAddress : Address → Option PublicKey
  parseTokenId : String → Option TokenId
  buildTransaction : PublicKey → Nat → TokenId → StateMachine → Option Tx
  serializeTx : Tx → List Nat
  blake3 : List Nat → Fin 32 → Fin 256

/-- External collaborators of `Darkfid::broadcast`: the base-58 decoder,
structured transaction decoding, the dry-run validator
(`ValidatorState::validate_state_transitions`), serialization and blake3. -/
structure BroadcastEnv where
  bs58decode : String → Option (List Nat)
  deserializeTx : List Nat → Option Tx
  validate_state_transitions : MemoryState → List Tx → Bool
  serializeTx : Tx → List Nat
  blake3 : List Nat → Fin 32 → Fin 256

/-- The `Darkfid` handler state referenced by the two entry points: the
synced flag, the canonical state machine behind `validator_state`, and the
optional sync P2P handle, abstracted to the outcome of `broadcast` per
transaction (`none` models the absence of a sync P2P network). -/
structure Darkfid where
  synced : Bool
  stateMachine : StateMachine
  syncP2p : Option (Tx → Bool)

/-- The hexadecimal alphabet used by `to_hex` (lowercase). -/
def hexDigits : List Char := "0123456789abcdef".data

/-- One hex digit (lowercase). -/
def hexDigit (n : Nat) : Char := hexDigits.getD (n % 16) '0'

/-- Two lowercase hex characters for one byte. -/
def byteToHex (b : Fin 256) : List Char := [hexDigit (b.val / 16), hexDigit (b.val % 16)]

/-- Modelled from the spec: the blake3 digest's `to_hex` rendering is
external to this repository; a 32-byte digest rendered as lowercase hex. -/
def toHex (h : Fin 32 → Fin 256) : String :=
  ⟨((List.finRange 32).map (fun i => byteToHex (h i))).flatten⟩

/-- The parameter-shape rejection condition of `Darkfid::transfer`
(rpc_tx.rs lines 30-34): rejected when the count is not 3 or the JSON types
are not (string, string, u64). -/
def transferParamsRejected (params : List JValue) : Bool :=
  params.length != 3 ||
    !(params.getD 0 JValue.null).is_string ||
    !(params.getD 1 JValue.null).is_string ||
    !(params.getD 2 JValue.null).is_u64

/-- The parameter-shape rejection condition of `Darkfid::broadcast`
(rpc_tx.rs line 112), exactly as written in the source: rejected when the
count is not 1 **or the single parameter is a string** (the check on
`is_string` is not negated in the source). -/
def broadcastParamsRejected (params : List JValue) : Bool :=
  params.length != 1 || (params.getD 0 JValue.null).is_string

/-- `Darkfid::transfer` (rpc_tx.rs lines 29-101): parameter-shape check,
synced gate, address/pubkey/token parsing, transaction build, peer
broadcast, content hash.  Returns the JSON result and the emitted side
effects. -/
def transfer (env : TransferEnv) (d : Darkfid) (params : List JValue) :
    JsonResult × List Event :=
  if transferParamsRejected params then
    (JsonResult.invalidParams, [])
  else if !d.synced then
    (JsonResult.serverError RpcError.NotYetSynced, [])
  else
    match (params.getD 0 JValue.null).as_str with
    | none => (JsonResult.crash "as_str unwrap", [])
    | some address_str =>
    match (params.getD 1 JValue.null).as_str with
    | none => (JsonResult.crash "as_str unwrap", [])
    | some token_str =>
    match (params.getD 2 JValue.null).as_u64 with
    | none => (JsonResult.crash "as_u64 unwrap", [])
    | some amount =>
    match env.parseAddress address_str with
    | none => (JsonResult.serverError RpcError.InvalidAddressParam, [])
    | some address =>
    match env.pubkeyFromAddress address with
    | none => (JsonResult.serverError RpcError.ParseError, [])
    | some pubkey =>
    match env.parseTokenId token_str with
    | none => (JsonResult.serverError RpcError.ParseError, [])
    | some tok =>
    match env.buildTransaction pubkey amount tok d.stateMachine with
    | none => (JsonResult.serverError RpcError.TxBuildFail, [])
    | some tx =>
    match d.syncP2p with
    | none => (JsonResult.serverError RpcError.TxBroadcastFail, [])
    | some bcast =>
      if bcast tx then
        (JsonResult.response (toHex (env.blake3 (env.serializeTx tx))),
          [Event.broadcastTx tx])
      else
        (JsonResult.serverError RpcError.TxBroadcastFail, [Event.broadcastTx tx])

/-- `Darkfid::broadcast` (rpc_tx.rs lines 111-161): parameter-shape check
(with the source's non-negated `is_string`), synced gate, the
`as_str().unwrap()` (a panic on non-strings), base-58 decode, structured
decode, snapshot clone into a `MemoryState`, dry-run validation, peer
broadcast, content hash.  Returns the JSON result, the emitted side effects,
and the canonical state after the call. -/
def broadcast (env : BroadcastEnv) (d : Darkfid) (params : List JValue) :
    JsonResult × List Event × StateMachine :=
  if broadcastParamsRejected params then
    (JsonResult.invalidParams, [], d.stateMachine)
  else if !d.synced then
    (JsonResult.serverError RpcError.NotYetSynced, [], d.stateMachine)
  else
    match (params.getD 0 JValue.null).as_str with
    | none => (JsonResult.crash "as_str unwrap", [], d.stateMachine)
    | some encoded =>
    match env.bs58decode encoded with
    | none =>
        (JsonResult.serverError RpcError.ParseError, [Event.decodeAttempt],
          d.stateMachine)
    | some tx_bytes =>
    match env.deserializeTx tx_bytes with
    | none =>
        (JsonResult.serverError RpcError.ParseError, [Event.decodeAttempt],
          d.stateMachine)
    | some tx =>
      let state_machine := d.stateMachine
      let mem_state := MemoryState.new state_machine
      if !env.validate_state_transitions mem_state [tx] then
        (JsonResult.serverError RpcError.TxSimulationFail,
          [Event.decodeAttempt, Event.simulationRun], d.stateMachine)
      else
        match d.syncP2p with
        | none =>
            (JsonResult.serverError RpcError.TxBroadcastFail,
              [Event.decodeAttempt, Event.simulationRun], d.stateMachine)
        | some bcast =>
          if bcast tx then
            (JsonResult.response (toHex (env.blake3 (env.serializeTx tx))),
              [Event.decodeAttempt, Event.simulationRun, Event.broadcastTx tx],
              d.stateMachine)
          else
            (JsonResult.serverError RpcError.TxBroadcastFail,
              [Event.decodeAttempt, Event.simulationRun, Event.broadcastTx tx],
              d.stateMachine)

/-! ## Address-Exchange protocol (`src/net/protocol/protocol_address.rs`) -/

/-- A network address as seen by the protocol: `host_str()` yields the host
when present, `none` when the URL has no host. -/
structure Addr where
  host : Option String
  rest : Nat
deriving DecidableEq

/-- `Url::host_str`. -/
def Addr.host_str (a : Addr) : Option String := a.host

/-- The `LOCALNET` constant (protocol_address.rs line 18). -/
def LOCALNET : List String := ["localhost", "0.0.0.0", "[::]", "127.0.0.1", "[::1]"]

/-- The `SEND_ADDR_SLEEP_SECONDS` constant (protocol_address.rs line 17). -/
def SEND_ADDR_SLEEP_SECONDS : Nat := 900

/-- Modelled from the spec: the session-role constants live outside the
given sources; the spec lists outbound-initiated, inbound-accepted and
seed-only roles, encoded here as distinct numeric type ids. -/
def SESSION_INBOUND : Nat := 1

/-- Modelled from the spec: the outbound-initiated session type id. -/
def SESSION_OUTBOUND : Nat := 2

/-- Modelled from the spec: the seed-only session type id. -/
def SESSION_SEED : Nat := 4

/-- The network settings fields read by the protocol: the local-network
flag and this node's configured external address list. -/
structure Settings where
  localnet : Bool
  external_addr : List Addr
deriving DecidableEq

/-- The `Addrs` wire message: an ordered list of addresses. -/
structure AddrsMessage where
  addrs : List Addr
deriving DecidableEq

/-- The channel state the protocol reads: the session type id and whether a
decoder is registered for each of the two message types it subscribes to. -/
structure Channel where
  session_type_id : Nat
  addrsDispatcherRegistered : Bool
  getAddrsDispatcherRegistered : Bool
deriving DecidableEq

/-- The typed failures of the Message Bus named by the spec. -/
inductive NetError where
  | DispatcherMissing
  | ChannelClosed
  | SendFailed
deriving DecidableEq

/-- A live subscription to `AddrsMessage` (a queue handle, contentless in
this model). -/
structure AddrsSubscription where
  ch : Channel
deriving DecidableEq

/-- A live subscription to `GetAddrsMessage`. -/
structure GetAddrsSubscription where
  ch : Channel
deriving DecidableEq

/-- Modelled from the spec: `Channel::subscribe_msg` is outside the given
sources; per the spec it fails with `DispatcherMissing` when no decoder is
registered for the message type on this connection. -/
def subscribe_msg_addrs (c : Channel) : Except NetError AddrsSubscription :=
  if c.addrsDispatcherRegistered then Except.ok ⟨c⟩
  else Except.error NetError.DispatcherMissing

/-- Modelled from the spec: `subscribe_msg` for `GetAddrsMessage`. -/
def subscribe_msg_get_addrs (c : Channel) : Except NetError GetAddrsSubscription :=
  if c.getAddrsDispatcherRegistered then Except.ok ⟨c⟩
  else Except.error NetError.DispatcherMissing

/-- The fields of `ProtocolAddress` filled in by `init`. -/
structure ProtocolAddressS where
  channel : Channel
  addrs_sub : AddrsSubscription
  get_addrs_sub : GetAddrsSubscription
  settings : Settings
deriving DecidableEq

/-- Outcome of `ProtocolAddress::init`: either the constructed protocol
instance, or a Rust panic (`expect` on an `Err`). -/
inductive InitOutcome where
  | ok (p : ProtocolAddressS)
  | crashed (msg : String)
deriving DecidableEq

/-- `ProtocolAddress::init` (protocol_address.rs lines 33-59): subscribes to
the `Addrs` and `GetAddrs` message types, unwrapping each result with
`expect` — a missing dispatcher panics with the `expect` message. -/
def ProtocolAddress.init (c : Channel) (settings : Settings) : InitOutcome :=
  match subscribe_msg_addrs c with
  | Except.error _ => InitOutcome.crashed "Missing addrs dispatcher!"
  | Except.ok addrs_sub =>
    match subscribe_msg_get_addrs c with
    | Except.error _ => InitOutcome.crashed "Missing getaddrs dispatcher!"
    | Except.ok get_addrs_sub =>
      InitOutcome.ok ⟨c, addrs_sub, get_addrs_sub, settings⟩

/-- The filtering loop body of `handle_receive_addrs` (protocol_address.rs
lines 71-87), translated structurally: an entry with a localnet host or no
host is skipped (`continue`), every other entry is pushed. -/
def filterLocalnet : List Addr → List Addr
  | [] => []
  | addr :: rest =>
    match addr.host_str with
    | some host_str =>
      if LOCALNET.contains host_str then filterLocalnet rest
      else addr :: filterLocalnet rest
    | none => filterLocalnet rest

/-- One iteration of `handle_receive_addrs` (protocol_address.rs lines
65-93): the list passed to `hosts.store` for a received `AddrsMessage`,
depending on the `localnet` setting. -/
def handle_receive_addrs_stored (settings : Settings) (msg : AddrsMessage) : List Addr :=
  if !settings.localnet then filterLocalnet msg.addrs else msg.addrs

/-- One iteration of `handle_receive_get_addrs` (protocol_address.rs lines
98-113): for one received `GetAddrs` request, the messages sent on the
channel, given the current full Host Store contents (`hosts.load_all`). -/
def handle_receive_get_addrs_sent (hosts : List Addr) : List AddrsMessage :=
  [⟨hosts⟩]

/-- One iteration of `send_my_addrs` (protocol_address.rs lines 115-123):
the `AddrsMessage` sent and the sleep in seconds that follows it. -/
def send_my_addrs_iteration (settings : Settings) : AddrsMessage × Nat :=
  (⟨settings.external_addr⟩, SEND_ADDR_SLEEP_SECONDS)

/-- The background jobs a `ProtocolAddress` can register. -/
inductive Job where
  | sendMyAddrs
  | handleReceiveAddrs
  | handleReceiveGetAddrs
deriving DecidableEq

/-- `ProtocolAddress::start` (protocol_address.rs lines 131-151): the jobs
spawned on the jobs manager, in order — `send_my_addrs` first and only when
the session is outbound and the external address list is non-empty, then the
two receive loops unconditionally. -/
def startJobs (c : Channel) (settings : Settings) : List Job :=
  (if c.session_type_id == SESSION_OUTBOUND && !settings.external_addr.isEmpty then
    [Job.sendMyAddrs]
  else []) ++ [Job.handleReceiveAddrs, Job.handleReceiveGetAddrs]

/-! ## Sample values for concrete evaluations -/

/-- A fixed concrete transaction. -/
def sampleTx : Tx := ⟨7⟩

/-- A fixed concrete canonical state. -/
def sampleState : StateMachine := ⟨0⟩

/-- A concrete transfer environment where every external step succeeds. -/
def sampleTransferEnv : TransferEnv where
  parseAddress := fun _ => some ⟨1⟩
  pubkeyFromAddress := fun _ => some ⟨2⟩
  parseTokenId := fun _ => some ⟨3⟩
  buildTransaction := fun _ _ _ _ => some sampleTx
  serializeTx := fun t => [t.data]
  blake3 := fun _ _ => 0

/-- A concrete broadcast environment where every external step succeeds. -/
def sampleBroadcastEnv : BroadcastEnv where
  bs58decode := fun _ => some [7]
  deserializeTx := fun _ => some sampleTx
  validate_state_transitions := fun _ _ => true
  serializeTx := fun t => [t.data]
  blake3 := fun _ _ => 0

/-- A synced node with one always-successful peer-broadcast path. -/
def syncedNode : Darkfid := ⟨true, sampleState, some (fun _ => true)⟩

/-- An unsynced node with one always-successful peer-broadcast path. -/
def unsyncedNode : Darkfid := ⟨false, sampleState, some (fun _ => true)⟩

/-- The parameter list of a well-formed `tx.transfer` request. -/
def transferParams (a t : String) (m : Int) : List JValue :=
  [JValue.str a, JValue.str t, JValue.num m]

/-- The retention predicate in the words of the filtering claim: an entry is
kept exactly when its host is present and distinct from the five
loopback/any-interface literals. -/
def specKeepAddr (a : Addr) : Bool :=
  match a.host_str with
  | none => false
  | some h => !(["localhost", "0.0.0.0", "[::]", "127.0.0.1", "[::1]"].contains h)

/-- A channel whose `Addrs` decoder is not registered. -/
def chNoAddrsDispatcher : Channel := ⟨2, false, true⟩

/-- Concrete settings: local-network mode off, no external address. -/
def sampleSettings : Settings := ⟨false, []⟩

/-- The Scenario D inbound address list: an empty host, a loopback host and
one routable host. -/
def scenarioDMsg : AddrsMessage :=
  ⟨[⟨none, 0⟩, ⟨some "127.0.0.1", 1⟩, ⟨some "203.0.113.5:8000", 2⟩]⟩

/-! ## Helper lemmas -/

/-- A JSON value that is not a string has no `as_str` view. -/
theorem as_str_eq_none_of_not_string (v : JValue) (h : v.is_string = false) :
    v.as_str = none := by
  cases v <;> simp_all [JValue.is_string, JValue.as_str]

/-- Every output of `hexDigit` is in the lowercase hex alphabet. -/
theorem hexDigit_mem (n : Nat) : hexDigit n ∈ hexDigits := by
  show hexDigits.getD (n % 16) '0' ∈ hexDigits
  have h : ∀ m, m < 16 → hexDigits.getD m '0' ∈ hexDigits := by decide
  exact h _ (Nat.mod_lt _ (by norm_num))

/-- Length of the flattened hex rendering of a list of bytes. -/
theorem flatten_map_byteToHex_length (h : Fin 32 → Fin 256) (l : List (Fin 32)) :
    ((l.map (fun i => byteToHex (h i))).flatten).length = 2 * l.length := by
  induction l with
  | nil => simp
  | cons a t ih =>
    have hb : (byteToHex (h a)).length = 2 := rfl
    simp only [List.map_cons, List.flatten_cons, List.length_append, ih, hb, List.length_cons]
    omega

/-- The hex rendering of a 32-byte digest has 64 characters. -/
theorem toHex_length (h : Fin 32 → Fin 256) : (toHex h).length = 64 := by
  show (((List.finRange 32).map (fun i => byteToHex (h i))).flatten).length = 64
  rw [flatten_map_byteToHex_length]
  simp

/-- Every character of the hex rendering is a lowercase hex digit. -/
theorem toHex_all_hex (h : Fin 32 → Fin 256) :
    ((toHex h).data.all (fun c => hexDigits.contains c)) = true := by
  rw [List.all_eq_true]
  intro c hc
  have hc2 : c ∈ ((List.finRange 32).map (fun i => byteToHex (h i))).flatten := hc
  rw [List.mem_flatten] at hc2
  obtain ⟨l, hl, hcl⟩ := hc2
  rw [List.mem_map] at hl
  obtain ⟨i, _, rfl⟩ := hl
  simp only [byteToHex, List.mem_cons, List.mem_singleton, List.not_mem_nil, or_false] at hcl
  rcases hcl with rfl | rfl <;>
    simpa using hexDigit_mem _

/-- The structural filtering loop is the filter by the spec predicate. -/
theorem filterLocalnet_eq_filter (l : List Addr) :
    filterLocalnet l = l.filter specKeepAddr := by
  induction l with
  | nil => rfl
  | cons a t ih =>
    obtain ⟨ho, r⟩ := a
    cases ho with
    | none => simp [filterLocalnet, specKeepAddr, Addr.host_str, List.filter_cons, ih]
    | some s =>
      simp only [filterLocalnet, specKeepAddr, Addr.host_str, List.filter_cons, LOCALNET]
      by_cases hs :
          (["localhost", "0.0.0.0", "[::]", "127.0.0.1", "[::1]"] : List String).contains s = true
      · rw [if_pos hs, if_neg (by rw [hs]; simp)]
        exact ih
      · rw [if_neg hs, if_pos (by simp [Bool.not_eq_true] at hs ⊢; exact hs)]
        rw [ih]

/-! ## Claim theorems -/

/-- C4: for every inbound address list, with local-network mode disabled the
stored list is exactly the input list with every empty-host or
loopback/any-interface entry removed and all other entries preserved in
relative order (a filter by the claim's retention predicate); with
local-network mode enabled the full list is stored unmodified. -/
theorem receive_addrs_filtering_spec (settings : Settings) (msg : AddrsMessage) :
    (settings.localnet = false →
      handle_receive_addrs_stored settings msg = msg.addrs.filter specKeepAddr) ∧
    (settings.localnet = true →
      handle_receive_addrs_stored settings msg = msg.addrs) := by
  constructor <;> intro h <;>
    simp [handle_receive_addrs_stored, h, filterLocalnet_eq_filter]

/-- Witness for C4, on the Scenario D list: local-network mode off, input
`[empty-host, 127.0.0.1, 203.0.113.5:8000]`, stored list exactly
`[203.0.113.5:8000]`. -/
theorem receive_addrs_filtering_spec_witness :
    handle_receive_addrs_stored ⟨false, []⟩ scenarioDMsg =
      scenarioDMsg.addrs.filter specKeepAddr ∧
    handle_receive_addrs_stored ⟨false, []⟩ scenarioDMsg =
      [⟨some "203.0.113.5:8000", 2⟩] :=
  ⟨(receive_addrs_filtering_spec ⟨false, []⟩ scenarioDMsg).1 rfl, by decide⟩

/-- C6 (counterexample): with no Addrs decoder registered on the channel,
`ProtocolAddress::init` panics through `expect` instead of surfacing a typed
error outcome. -/
theorem init_missing_dispatcher_is_crash :
    ProtocolAddress.init chNoAddrsDispatcher sampleSettings =
      InitOutcome.crashed "Missing addrs dispatcher!" := rfl

/-- C6 (amended): the subscribe operation itself yields the typed
DispatcherMissing error, but `ProtocolAddress::init` unwraps it with
`expect`, so a missing Addrs decoder at protocol initialisation is a panic
carrying the expect message, not a typed error surfaced to the caller. -/
theorem subscribe_typed_error_but_init_unwraps (c : Channel) (s : Settings)
    (h : c.addrsDispatcherRegistered = false) :
    subscribe_msg_addrs c = Except.error NetError.DispatcherMissing ∧
    ProtocolAddress.init c s = InitOutcome.crashed "Missing addrs dispatcher!" := by
  have hsub : subscribe_msg_addrs c = Except.error NetError.DispatcherMissing := by
    simp [subscribe_msg_addrs, h]
  exact ⟨hsub, by simp [ProtocolAddress.init, hsub]⟩

/-- Witness for the amended C6 at a concrete channel. -/
theorem subscribe_typed_error_but_init_unwraps_witness :
    subscribe_msg_addrs chNoAddrsDispatcher = Except.error NetError.DispatcherMissing ∧
    ProtocolAddress.init chNoAddrsDispatcher sampleSettings =
      InitOutcome.crashed "Missing addrs dispatcher!" :=
  subscribe_typed_error_but_init_unwraps chNoAddrsDispatcher sampleSettings rfl

/-- C7: the self-announcement job is registered if and only if the session
is outbound-initiated and the configured external address list is
non-empty; each iteration of the job sends the node's external address list
as one Addrs message and then sleeps the fixed 900-second interval. -/
theorem self_announce_registration_iff (c : Channel) (settings : Settings) :
    (Job.sendMyAddrs ∈ startJobs c settings ↔
      c.session_type_id = SESSION_OUTBOUND ∧ settings.external_addr ≠ []) ∧
    send_my_addrs_iteration settings = (⟨settings.external_addr⟩, 900) := by
  refine ⟨?_, rfl⟩
  simp [startJobs, List.isEmpty_iff]

/-- C8: for one inbound GetAddrs request, the protocol sends exactly one
Addrs message whose payload is the full current Host Store contents, with
no pagination or truncation. -/
theorem get_addrs_reply_full_store (hosts : List Addr) :
    handle_receive_get_addrs_sent hosts = [AddrsMessage.mk hosts] ∧
    (handle_receive_get_addrs_sent hosts).length = 1 ∧
    (handle_receive_get_addrs_sent hosts).map AddrsMessage.addrs = [hosts] :=
  ⟨rfl, rfl, rfl⟩

/-- C1: contrary to the claim, `tx.broadcast` rejects a single string
parameter as invalid-params (the `is_string` check at line 112 is not
negated in the source) and never rejects a single non-string parameter as
invalid-params. -/
theorem broadcast_param_check_inverted (env : BroadcastEnv) (d : Darkfid)
    (s : String) (n : Int) :
    (broadcast env d [JValue.str s]).1 = JsonResult.invalidParams ∧
    (broadcast env d [JValue.num n]).1 ≠ JsonResult.invalidParams := by
  constructor
  · simp [broadcast, broadcastParamsRejected, JValue.is_string]
  · have hrej : broadcastParamsRejected [JValue.num n] = false := by
      simp [broadcastParamsRejected, JValue.is_string]
    cases hsync : d.synced <;>
      simp [broadcast, hrej, hsync, JValue.as_str]

/-- C2: the dry-run path of `tx.broadcast` is unreachable in the source: no
call returns TxSimulationFail or runs the simulation, and a synced call
with the single non-string parameter shape admitted by the inverted check
crashes at the `as_str().unwrap()`, leaving the canonical state unchanged. -/
theorem broadcast_simulation_path_unreachable :
    (∀ (env : BroadcastEnv) (d : Darkfid) (params : List JValue),
      (broadcast env d params).1 ≠ JsonResult.serverError RpcError.TxSimulationFail ∧
      Event.simulationRun ∉ (broadcast env d params).2.1) ∧
    (∀ (env : BroadcastEnv) (st : StateMachine) (p : Option (Tx → Bool)),
      broadcast env ⟨true, st, p⟩ [JValue.num 42] =
        (JsonResult.crash "as_str unwrap", [], st)) := by
  constructor
  · intro env d params
    by_cases hrej : broadcastParamsRejected params = true
    · simp [broadcast, hrej]
    · have hrej2 : broadcastParamsRejected params = false := by
        simpa using hrej
      have hns : (params.getD 0 JValue.null).is_string = false := by
        rw [broadcastParamsRejected, Bool.or_eq_false_iff] at hrej2
        exact hrej2.2
      have ha : ((params[0]?).getD JValue.null).as_str = none := by
        simpa [List.getD_eq_getElem?_getD] using as_str_eq_none_of_not_string _ hns
      cases hsync : d.synced <;>
        simp [broadcast, hrej2, hsync, ha]
  · intro env st p
    rfl

/-- C3 (counterexample): a `tx.broadcast` call with a single string
parameter on an unsynced node returns invalid-params, not not-yet-synced:
the parameter-shape check runs before the synced gate, and the inverted
check rejects string parameters. -/
theorem unsynced_string_param_counterexample :
    (broadcast sampleBroadcastEnv unsyncedNode [JValue.str "x"]).1 =
      JsonResult.invalidParams ∧
    (broadcast sampleBroadcastEnv unsyncedNode [JValue.str "x"]).1 ≠
      JsonResult.serverError RpcError.NotYetSynced := by
  exact ⟨rfl, by decide⟩

/-- C3 (amended): for every call that passes the handler's parameter-shape
check — which for `tx.broadcast` admits exactly a single non-string
parameter, due to the inverted check — an unsynced node fails with
not-yet-synced, with no decoding attempted, no side effects and the
canonical state unchanged; the same gate applies to `tx.transfer` for its
shape-valid parameters. -/
theorem notyetsynced_gate_after_shape_check (benv : BroadcastEnv)
    (tenv : TransferEnv) (d : Darkfid) (bp tp : List JValue)
    (hb : broadcastParamsRejected bp = false)
    (ht : transferParamsRejected tp = false)
    (hs : d.synced = false) :
    broadcast benv d bp =
      (JsonResult.serverError RpcError.NotYetSynced, [], d.stateMachine) ∧
    transfer tenv d tp = (JsonResult.serverError RpcError.NotYetSynced, []) := by
  constructor
  · simp [broadcast, hb, hs]
  · simp [transfer, ht, hs]

/-- Witness for the amended C3 at concrete inputs. -/
theorem notyetsynced_gate_after_shape_check_witness :
    broadcast sampleBroadcastEnv unsyncedNode [JValue.num 5] =
      (JsonResult.serverError RpcError.NotYetSynced, [],
        unsyncedNode.stateMachine) ∧
    transfer sampleTransferEnv unsyncedNode
      [JValue.str "a", JValue.str "b", JValue.num 1] =
      (JsonResult.serverError RpcError.NotYetSynced, []) :=
  notyetsynced_gate_after_shape_check sampleBroadcastEnv sampleTransferEnv
    unsyncedNode [JValue.num 5] [JValue.str "a", JValue.str "b", JValue.num 1]
    (by decide) (by decide) rfl

/-- C10: in both entry points the parameter-shape check runs before the
synced gate: a shape-rejected request yields invalid-params for every value
of the synced flag, not-yet-synced is returned only when the shape check
passed, and amount 0 passes `tx.transfer`'s parameter validation (no
positivity check). -/
theorem shape_check_precedes_synced_gate (benv : BroadcastEnv)
    (tenv : TransferEnv) (d : Darkfid) (bp tp : List JValue) :
    (broadcastParamsRejected bp = true →
      (broadcast benv d bp).1 = JsonResult.invalidParams) ∧
    (transferParamsRejected tp = true →
      (transfer tenv d tp).1 = JsonResult.invalidParams) ∧
    ((broadcast benv d bp).1 = JsonResult.serverError RpcError.NotYetSynced →
      broadcastParamsRejected bp = false) ∧
    ((transfer tenv d tp).1 = JsonResult.serverError RpcError.NotYetSynced →
      transferParamsRejected tp = false) ∧
    transferParamsRejected [JValue.str "a", JValue.str "b", JValue.num 0] = false := by
  refine ⟨?_, ?_, ?_, ?_, by decide⟩
  · intro h
    simp [broadcast, h]
  · intro h
    simp [transfer, h]
  · intro h
    by_cases hrej : broadcastParamsRejected bp = true
    · rw [broadcast] at h
      simp [hrej] at h
    · simpa using hrej
  · intro h
    by_cases hrej : transferParamsRejected tp = true
    · rw [transfer] at h
      simp [hrej] at h
    · simpa using hrej

/-- Witness for C10 at concrete inputs, with the synced flag false. -/
theorem shape_check_precedes_synced_gate_witness :
    (broadcast sampleBroadcastEnv unsyncedNode [JValue.str "x"]).1 =
      JsonResult.invalidParams ∧
    (transfer sampleTransferEnv unsyncedNode []).1 = JsonResult.invalidParams ∧
    transferParamsRejected [JValue.str "a", JValue.str "b", JValue.num 0] = false := by
  have h := shape_check_precedes_synced_gate sampleBroadcastEnv sampleTransferEnv
    unsyncedNode [JValue.str "x"] []
  exact ⟨h.1 (by decide), h.2.1 (by decide), h.2.2.2.2⟩

/-- Every `tx.transfer` call emits either no side effect or exactly one
peer-broadcast event. -/
theorem transfer_trace_cases (env : TransferEnv) (d : Darkfid) (ps : List JValue) :
    (transfer env d ps).2 = [] ∨
      ∃ tx, (transfer env d ps).2 = [Event.broadcastTx tx] := by
  unfold transfer
  repeat' split
  all_goals first
    | exact Or.inl rfl
    | exact Or.inr ⟨_, rfl⟩

/-- C5: the step order and error mapping of `tx.transfer` past the synced
gate — destination parse failure yields InvalidAddressParam, public-key
conversion failure and token-identifier parse failure yield ParseError,
build failure yields TxBuildFail, broadcast failure or absence of a
peer-broadcast capability yields TxBroadcastFail, no dry-run simulation is
ever performed, and on success the result is the hex-rendered content hash
of the serialized transaction: 64 characters, all lowercase hex digits. -/
theorem transfer_error_mapping (env : TransferEnv) (d : Darkfid)
    (a t : String) (m : Int) (hm : 0 ≤ m ∧ m < 2 ^ 64) (hs : d.synced = true) :
    (env.parseAddress a = none →
      transfer env d (transferParams a t m) =
        (JsonResult.serverError RpcError.InvalidAddressParam, [])) ∧
    (∀ ad, env.parseAddress a = some ad → env.pubkeyFromAddress ad = none →
      transfer env d (transferParams a t m) =
        (JsonResult.serverError RpcError.ParseError, [])) ∧
    (∀ ad pk, env.parseAddress a = some ad → env.pubkeyFromAddress ad = some pk →
      env.parseTokenId t = none →
      transfer env d (transferParams a t m) =
        (JsonResult.serverError RpcError.ParseError, [])) ∧
    (∀ ad pk tok, env.parseAddress a = some ad →
      env.pubkeyFromAddress ad = some pk → env.parseTokenId t = some tok →
      env.buildTransaction pk m.toNat tok d.stateMachine = none →
      transfer env d (transferParams a t m) =
        (JsonResult.serverError RpcError.TxBuildFail, [])) ∧
    (∀ ad pk tok tx, env.parseAddress a = some ad →
      env.pubkeyFromAddress ad = some pk → env.parseTokenId t = some tok →
      env.buildTransaction pk m.toNat tok d.stateMachine = some tx →
      d.syncP2p = none →
      transfer env d (transferParams a t m) =
        (JsonResult.serverError RpcError.TxBroadcastFail, [])) ∧
    (∀ ad pk tok tx f, env.parseAddress a = some ad →
      env.pubkeyFromAddress ad = some pk → env.parseTokenId t = some tok →
      env.buildTransaction pk m.toNat tok d.stateMachine = some tx →
      d.syncP2p = some f → f tx = false →
      transfer env d (transferParams a t m) =
        (JsonResult.serverError RpcError.TxBroadcastFail, [Event.broadcastTx tx])) ∧
    (∀ ad pk tok tx f, env.parseAddress a = some ad →
      env.pubkeyFromAddress ad = some pk → env.parseTokenId t = some tok →
      env.buildTransaction pk m.toNat tok d.stateMachine = some tx →
      d.syncP2p = some f → f tx = true →
      transfer env d (transferParams a t m) =
        (JsonResult.response (toHex (env.blake3 (env.serializeTx tx))),
          [Event.broadcastTx tx]) ∧
      (toHex (env.blake3 (env.serializeTx tx))).length = 64 ∧
      ((toHex (env.blake3 (env.serializeTx tx))).data.all
        (fun c => hexDigits.contains c)) = true) ∧
    (∀ ps, Event.simulationRun ∉ (transfer env d ps).2) := by
  have hm2 : m < (18446744073709551616 : Int) := by simpa using hm.2
  have hrej : transferParamsRejected [JValue.str a, JValue.str t, JValue.num m] = false := by
    simp [transferParamsRejected, JValue.is_string, JValue.is_u64]
    exact ⟨hm.1, hm.2⟩
  refine ⟨?_, ?_, ?_, ?_, ?_, ?_, ?_, ?_⟩
  · intro hpa
    simp [transfer, hrej, hs, transferParams, JValue.as_str, JValue.as_u64,
      hm.1, hm2, hpa]
  · intro ad hpa hpk
    simp [transfer, hrej, hs, transferParams, JValue.as_str, JValue.as_u64,
      hm.1, hm2, hpa, hpk]
  · intro ad pk hpa hpk htok
    simp [transfer, hrej, hs, transferParams, JValue.as_str, JValue.as_u64,
      hm.1, hm2, hpa, hpk, htok]
  · intro ad pk tok hpa hpk htok hbuild
    simp [transfer, hrej, hs, transferParams, JValue.as_str, JValue.as_u64,
      hm.1, hm2, hpa, hpk, htok, hbuild]
  · intro ad pk tok tx hpa hpk htok hbuild hp2p
    simp [transfer, hrej, hs, transferParams, JValue.as_str, JValue.as_u64,
      hm.1, hm2, hpa, hpk, htok, hbuild, hp2p]
  · intro ad pk tok tx f hpa hpk htok hbuild hp2p hf
    simp [transfer, hrej, hs, transferParams, JValue.as_str, JValue.as_u64,
      hm.1, hm2, hpa, hpk, htok, hbuild, hp2p, hf]
  · intro ad pk tok tx f hpa hpk htok hbuild hp2p hf
    refine ⟨?_, toHex_length _, toHex_all_hex _⟩
    simp [transfer, hrej, hs, transferParams, JValue.as_str, JValue.as_u64,
      hm.1, hm2, hpa, hpk, htok, hbuild, hp2p, hf]
  · intro ps
    rcases transfer_trace_cases env d ps with h | ⟨tx, h⟩ <;> simp [h]

/-- Witness for C5: the Scenario A success path at concrete inputs, amount
12345, synced node, one always-successful peer. -/
theorem transfer_error_mapping_witness :
    transfer sampleTransferEnv syncedNode (transferParams "addr" "tok" 12345) =
      (JsonResult.response
        (toHex (sampleTransferEnv.blake3 (sampleTransferEnv.serializeTx sampleTx))),
        [Event.broadcastTx sampleTx]) ∧
    (toHex (sampleTransferEnv.blake3 (sampleTransferEnv.serializeTx sampleTx))).length = 64 := by
  have h := transfer_error_mapping sampleTransferEnv syncedNode "addr" "tok" 12345
    (by constructor <;> norm_num) rfl
  have h7 := h.2.2.2.2.2.2.1 ⟨1⟩ ⟨2⟩ ⟨3⟩ sampleTx (fun _ => true)
    rfl rfl rfl rfl rfl rfl
  exact ⟨h7.1, h7.2.1⟩
